import Mathlib

/-!
Shallow embedding of the AirDrop-Web file lifecycle core: the request
handlers for register, upload, list, patch, delete, the photo-variant
upload, and the public share resolver, together with the metadata-store
queries they issue.  Pure data is modelled directly; the two external
services (object store, metadata store) are modelled as explicit state
(`Store`), and the outcomes of their fallible calls as explicit boolean
oracles threaded into the handlers.
-/

/-- A row of the `files` table, as created and mutated by the handlers. -/
structure FileRecord where
  id : String
  user_id : String
  file_path : String
  file_name : String
  file_type : String
  file_size : Nat
  description : Option String
  is_favorite : Bool
  tags : List String
  share_token : Option String
  created_at : Nat
  deriving Repr, DecidableEq

/-- The two external stores the lifecycle coordinator talks to: the blob
paths present in the object store and the rows of the `files` table. -/
structure Store where
  blobs : List String
  records : List FileRecord
  deriving Repr, DecidableEq

/-- JavaScript `x || null` applied to an optional string field: the empty
string is falsy and collapses to null. -/
def jsOrNull (s : Option String) : Option String :=
  match s with
  | some d => if d = "" then none else some d
  | none => none

/-- JavaScript `s.startsWith(p)`: `p`'s characters are a prefix of `s`'s. -/
def jsStartsWith (s p : String) : Bool :=
  p.toList.isPrefixOf s.toList

/-- Outcome of a handler: an error status/message pair, or a success value. -/
inductive HandlerResult (α : Type) where
  | err (status : Nat) (msg : String)
  | ok (v : α)
  deriving Repr, DecidableEq

/-- POST register: attach metadata to a pre-uploaded blob.  `auth` is the
identity resolver's answer, `dbOk` the metadata-store insert outcome,
`recId`/`createdAt` the values the store generates at insert time. -/
def register (auth : Option String) (filePath fileName fileType : String)
    (fileSize : Option Nat) (description : Option String)
    (recId : String) (createdAt : Nat) (dbOk : Bool) (st : Store) :
    HandlerResult FileRecord × Store :=
  match auth with
  | none => (.err 401 "Unauthorized", st)
  | some userId =>
    if filePath = "" ∨ fileName = "" ∨ fileType = "" ∨ fileSize = none then
      (.err 400 "Missing required fields", st)
    else if ¬ jsStartsWith filePath (userId ++ "/") then
      (.err 403 "Invalid file path", st)
    else if ¬ st.blobs.contains filePath then
      (.err 404 "File not found in storage", st)
    else if ¬ dbOk then
      (.err 500 "Failed to save file metadata", st)
    else
      let r : FileRecord :=
        { id := recId, user_id := userId, file_path := filePath,
          file_name := fileName, file_type := fileType,
          file_size := fileSize.getD 0, description := jsOrNull description,
          is_favorite := false, tags := [], share_token := none,
          created_at := createdAt }
      (.ok r, { st with records := st.records ++ [r] })

/-- C1: a register request with all required fields present whose
`filePath` does not start with the caller's identity followed by a slash
is rejected with 403 and the store (blobs and records) is unchanged. -/
theorem register_path_prefix_enforced
    (u filePath fileName fileType : String) (n : Nat)
    (description : Option String) (recId : String) (createdAt : Nat)
    (dbOk : Bool) (st : Store)
    (hp : filePath ≠ "") (hn : fileName ≠ "") (ht : fileType ≠ "")
    (hpre : jsStartsWith filePath (u ++ "/") = false) :
    register (some u) filePath fileName fileType (some n) description
      recId createdAt dbOk st = (.err 403 "Invalid file path", st) := by
  simp [register, hp, hn, ht, hpre]

/-- Witness for C1 at a concrete input: caller u1 registering path
u2/x.png gets 403 and the store is untouched. -/
theorem register_path_prefix_enforced_witness :
    register (some "u1") "u2/x.png" "x.png" "image/png" (some 5) none
      "r1" 0 true ⟨[], []⟩ = (.err 403 "Invalid file path", ⟨[], []⟩) :=
  register_path_prefix_enforced "u1" "u2/x.png" "x.png" "image/png" 5 none
    "r1" 0 true ⟨[], []⟩ (by decide) (by decide) (by decide) (by decide)

/-! ## Metadata-store queries

Each supabase query-builder chain in the handlers is embedded as the
table it targets, the row operation, and the ordered list of `.eq`
column filters it carries. -/

/-- Row operation of a metadata-store query. -/
inductive DbOp where
  | select
  | update
  | delete
  deriving Repr, DecidableEq

/-- A metadata-store query: target table, operation, `.eq` filters. -/
structure DbQuery where
  table : String
  op : DbOp
  eqFilters : List (String × String)
  deriving Repr, DecidableEq

/-- The PATCH handler's ownership pre-check:
`from("files").select("*").eq("id", id).eq("user_id", userId).single()`. -/
def patchFetchQuery (id uid : String) : DbQuery :=
  ⟨"files", .select, [("id", id), ("user_id", uid)]⟩

/-- The PATCH handler's update statement:
`from("files").update(updates).eq("id", id).select().single()`. -/
def patchUpdateQuery (id : String) : DbQuery :=
  ⟨"files", .update, [("id", id)]⟩

/-- The DELETE handler's ownership pre-check:
`from("files").select("*").eq("id", fileId).eq("user_id", userId).single()`. -/
def deleteFetchQuery (id uid : String) : DbQuery :=
  ⟨"files", .select, [("id", id), ("user_id", uid)]⟩

/-- The DELETE handler's delete statement:
`from("files").delete().eq("id", fileId)`. -/
def deleteDeleteQuery (id : String) : DbQuery :=
  ⟨"files", .delete, [("id", id)]⟩

/-- The share resolver's lookup:
`from("files").select(...).eq("share_token", token).single()`. -/
def shareTokenQuery (token : String) : DbQuery :=
  ⟨"files", .select, [("share_token", token)]⟩

/-- The list handler's query:
`from("files").select("*").eq("user_id", userId).order(...)`. -/
def listQuery (uid : String) : DbQuery :=
  ⟨"files", .select, [("user_id", uid)]⟩

/-- C2: the ownership pre-check selects are filtered by both id and
owner, and the share-token lookup is not owner-filtered; but the PATCH
update statement and the DELETE delete statement carry only the id
filter — no owner filter appears in those queries themselves, contrary
to the claim. -/
theorem mutation_queries_lack_owner_filter (id uid tok : String) :
    (patchFetchQuery id uid).eqFilters = [("id", id), ("user_id", uid)] ∧
    (deleteFetchQuery id uid).eqFilters = [("id", id), ("user_id", uid)] ∧
    (shareTokenQuery tok).eqFilters = [("share_token", tok)] ∧
    (patchUpdateQuery id).eqFilters = [("id", id)] ∧
    (deleteDeleteQuery id).eqFilters = [("id", id)] ∧
    "user_id" ∉ (patchUpdateQuery id).eqFilters.map Prod.fst ∧
    "user_id" ∉ (deleteDeleteQuery id).eqFilters.map Prod.fst := by
  refine ⟨rfl, rfl, rfl, rfl, rfl, ?_, ?_⟩ <;>
    simp [patchUpdateQuery, deleteDeleteQuery]

/-! ## PATCH partial update -/

/-- The parsed PATCH body.  `is_favorite` is recorded only when the JSON
value is a boolean (`typeof is_favorite === "boolean"`), `tags` only when
it is an array (`Array.isArray(tags)`); the two share-link fields are
used only for their truthiness. -/
structure PatchBody where
  id : Option String
  is_favorite : Option Bool
  tags : Option (List String)
  generate_share_link : Bool
  remove_share_link : Bool
  deriving Repr, DecidableEq

/-- The `updates` object built by the PATCH handler, applied to a record:
each present field is assigned in program order, so a later assignment to
`share_token` overwrites an earlier one.  `newTok` is the fresh
`randomUUID()` used when a share link is generated. -/
def applyUpdates (b : PatchBody) (newTok : String) (r : FileRecord) :
    FileRecord :=
  let r1 := match b.is_favorite with
    | some v => { r with is_favorite := v }
    | none => r
  let r2 := match b.tags with
    | some t => { r1 with tags := t }
    | none => r1
  let r3 := if b.generate_share_link then { r2 with share_token := some newTok }
    else r2
  if b.remove_share_link then { r3 with share_token := none } else r3

/-- C6: a PATCH changes exactly the fields present in the request — all
fields the handler never writes are always unchanged, each mutable field
keeps its old value when its request field is absent, a PATCH supplying
only `is_favorite` is exactly the one-field update, and toggling
`is_favorite` twice returns the record to its original value. -/
theorem patch_partial_update_frame (b : PatchBody) (newTok : String)
    (r : FileRecord) (bid : Option String) (v : Bool) :
    ((applyUpdates b newTok r).id = r.id ∧
     (applyUpdates b newTok r).user_id = r.user_id ∧
     (applyUpdates b newTok r).file_path = r.file_path ∧
     (applyUpdates b newTok r).file_name = r.file_name ∧
     (applyUpdates b newTok r).file_type = r.file_type ∧
     (applyUpdates b newTok r).file_size = r.file_size ∧
     (applyUpdates b newTok r).description = r.description ∧
     (applyUpdates b newTok r).created_at = r.created_at) ∧
    ((applyUpdates b newTok r).is_favorite =
      (b.is_favorite.getD r.is_favorite)) ∧
    ((applyUpdates b newTok r).tags = (b.tags.getD r.tags)) ∧
    ((applyUpdates b newTok r).share_token =
      (if b.remove_share_link then none
       else if b.generate_share_link then some newTok
       else r.share_token)) ∧
    (applyUpdates ⟨bid, some v, none, false, false⟩ newTok r =
      { r with is_favorite := v }) ∧
    (applyUpdates ⟨bid, some (!(applyUpdates ⟨bid, some (!r.is_favorite),
        none, false, false⟩ newTok r).is_favorite), none, false, false⟩
      newTok
      (applyUpdates ⟨bid, some (!r.is_favorite), none, false, false⟩
        newTok r) = r) := by
  unfold applyUpdates
  cases hf : b.is_favorite <;> cases htg : b.tags <;>
    cases hg : b.generate_share_link <;> cases hrm : b.remove_share_link <;>
    simp_all

/-- C7: when a single PATCH requests both share-link generation and
share-link revocation, the revoke assignment runs after the generate
assignment, so the resulting record has no share token. -/
theorem patch_generate_and_revoke_ends_revoked (bid : Option String)
    (fav : Option Bool) (tg : Option (List String)) (newTok : String)
    (r : FileRecord) :
    (applyUpdates ⟨bid, fav, tg, true, true⟩ newTok r).share_token =
      none := by
  unfold applyUpdates
  simp


/-! ## Stored-name generation -/

/-- Lowercase ASCII letter or digit — the character class kept by the
sanitizing `replace(/[^a-z0-9]/g, "")`. -/
def isLowerAlnum (c : Char) : Bool :=
  ('a' ≤ c && c ≤ 'z') || ('0' ≤ c && c ≤ '9')

/-- `replace(/[^a-z0-9]/g, "")`: drop every character outside a-z0-9. -/
def stripNonAlnum (s : String) : String :=
  String.mk (s.toList.filter isLowerAlnum)

/-- `toLowerCase()`, character by character. -/
def lowerStr (s : String) : String :=
  String.mk (s.toList.map Char.toLower)

/-- JavaScript `s.split(sep)` for a one-character separator, over the
character list. -/
def splitOnChar (sep : Char) : List Char → List (List Char)
  | [] => [[]]
  | c :: cs =>
    let rest := splitOnChar sep cs
    if c = sep then [] :: rest
    else
      match rest with
      | r :: rs => (c :: r) :: rs
      | [] => [[c]]

/-- JavaScript `s.split(sep)` returning strings. -/
def jsSplit (s : String) (sep : Char) : List String :=
  (splitOnChar sep s.toList).map String.mk

/-- JavaScript `parts.pop() || dflt`: the last element, or `dflt` when
the array is empty or its last element is the empty string. -/
def jsPop (parts : List String) (dflt : String) : String :=
  match parts.getLast? with
  | some e => if e = "" then dflt else e
  | none => dflt

/-- Extension derived from the MIME subtype:
`fileType.split("/").pop()?.replace(/[^a-z0-9]/g, "")` (no lowercasing). -/
def mimeExtOf (fileType : String) : String :=
  stripNonAlnum (jsPop (jsSplit fileType '/') "")

/-- Extension taken from the original filename by the generic upload and
upload-url handlers: when the name has at least one dot, the trailing
segment (`pop() || "bin"`) lowercased and stripped to a-z0-9
(`|| "bin"` when that is empty); otherwise "bin". -/
def extFromName (fileName : String) : String :=
  if (jsSplit fileName '.').length > 1 then
    if stripNonAlnum (lowerStr (jsPop (jsSplit fileName '.') "bin")) = ""
    then "bin"
    else stripNonAlnum (lowerStr (jsPop (jsSplit fileName '.') "bin"))
  else "bin"

/-- The robust extension of the generic upload and upload-url handlers:
the filename-derived extension, and when that is (still) "bin", the
MIME-subtype fallback when it is usable. -/
def robustExt (fileName fileType : String) : String :=
  if extFromName fileName = "bin" then
    if mimeExtOf fileType ≠ "" then mimeExtOf fileType else "bin"
  else extFromName fileName

/-- Stored object name of the generic upload and upload-url handlers:
`{uniqueId}.{ext}` with the robust extension. -/
def uploadStoredName (uid fileName fileType : String) : String :=
  uid ++ "." ++ robustExt fileName fileType

/-- The photo-variant upload's extension extraction:
`file.name.split(".").pop() || "jpg"` — the raw trailing segment of the
original filename, with no sanitization at all. -/
def photosExt (fileName : String) : String :=
  jsPop (jsSplit fileName '.') "jpg"

/-- Stored object name of the photo-variant upload handler:
`{crypto.randomUUID()}.{ext}` with the raw extension. -/
def photoStoredName (uid fileName : String) : String :=
  uid ++ "." ++ photosExt fileName

/-- Every character of a `stripNonAlnum` output is lowercase
alphanumeric. -/
theorem stripNonAlnum_all (s : String) :
    ∀ c ∈ (stripNonAlnum s).toList, isLowerAlnum c = true := by
  intro c hc
  unfold stripNonAlnum at hc
  exact (List.mem_filter.mp hc).2

/-- Every character of "bin" is lowercase alphanumeric. -/
theorem bin_all : ∀ c ∈ ("bin" : String).toList, isLowerAlnum c = true := by
  decide

/-- The filename-derived extension is nonempty. -/
theorem extFromName_ne_empty (n : String) : extFromName n ≠ "" := by
  unfold extFromName
  split
  · split
    · decide
    · assumption
  · decide

/-- The filename-derived extension is entirely lowercase alphanumeric. -/
theorem extFromName_all (n : String) :
    ∀ c ∈ (extFromName n).toList, isLowerAlnum c = true := by
  unfold extFromName
  split
  · split
    · exact bin_all
    · exact stripNonAlnum_all _
  · exact bin_all

/-- C8 counterexample: for the photo-variant upload of a file named
`img.P/NG`, the stored name is `{uid}.P/NG` — it keeps the slash and the
uppercase letters of the original filename, so the stored name is not
sanitized to lowercase alphanumerics and can carry unsafe characters. -/
theorem photo_stored_name_unsafe :
    photoStoredName "a1b2" "img.P/NG" = "a1b2.P/NG" ∧
    '/' ∈ (photosExt "img.P/NG").toList ∧
    ¬ (∀ c ∈ (photosExt "img.P/NG").toList, isLowerAlnum c = true) := by
  refine ⟨by decide, by decide, by decide⟩

/-- C8 amended: in the generic upload and upload-url handlers, the stored
name is `{uid}.{ext}` where `ext` is never empty and consists only of
lowercase alphanumeric characters, with the filename-segment,
MIME-subtype and "bin" fallback chain; (the photo-variant handler instead
uses the raw trailing segment of the original filename, unsanitized). -/
theorem upload_stored_name_sanitized (uid fileName fileType : String) :
    uploadStoredName uid fileName fileType =
      uid ++ "." ++ robustExt fileName fileType ∧
    robustExt fileName fileType ≠ "" ∧
    (∀ c ∈ (robustExt fileName fileType).toList, isLowerAlnum c = true) ∧
    ((jsSplit fileName '.').length ≤ 1 →
      robustExt fileName fileType =
        (if mimeExtOf fileType ≠ "" then mimeExtOf fileType
         else "bin")) := by
  refine ⟨rfl, ?_, ?_, ?_⟩
  · unfold robustExt
    split
    · split
      · assumption
      · decide
    · exact extFromName_ne_empty fileName
  · unfold robustExt
    split
    · split
      · intro c hc
        unfold mimeExtOf at hc
        exact stripNonAlnum_all _ c hc
      · exact bin_all
    · exact extFromName_all fileName
  · intro hlen
    unfold robustExt
    have hb : extFromName fileName = "bin" := by
      unfold extFromName
      rw [if_neg]
      omega
    rw [if_pos hb]

/-! ## Multi-file upload -/

/-- A binary payload of a multipart upload: original name, declared MIME
type, declared size in bytes. -/
structure UploadFile where
  name : String
  type : String
  size : Nat
  deriving Repr, DecidableEq

/-- The per-file external outcomes and generated values: the fresh unique
id for the stored name, the id and timestamp the metadata store generates
on insert, and the success of the blob write, the metadata insert and the
best-effort compensating blob delete. -/
structure UploadOutcome where
  uid : String
  recId : String
  createdAt : Nat
  uploadOk : Bool
  insertOk : Bool
  removeOk : Bool
  deriving Repr, DecidableEq

/-- `MAX_FILE_SIZE = 50 * 1024 * 1024` (50MB per file). -/
def MAX_FILE_SIZE : Nat := 50 * 1024 * 1024

/-- `file.type || "application/octet-stream"`. -/
def jsTypeOr (t : String) : String :=
  if t = "" then "application/octet-stream" else t

/-- The per-file verdict of the upload loop: the created record, or the
per-file error string naming the original filename.  It depends only on
the file and its outcome, never on the sibling files or the store. -/
def fileResult (userId : String) (descr : Option String) (f : UploadFile)
    (o : UploadOutcome) : Except String FileRecord :=
  if f.size > MAX_FILE_SIZE then
    .error (f.name ++ ": File too large (max 50MB)")
  else if ¬ o.uploadOk then .error (f.name ++ ": Upload failed")
  else if ¬ o.insertOk then .error (f.name ++ ": Failed to save metadata")
  else
    .ok { id := o.recId, user_id := userId,
          file_path := userId ++ "/" ++ uploadStoredName o.uid f.name f.type,
          file_name := f.name, file_type := jsTypeOr f.type,
          file_size := f.size, description := jsOrNull descr,
          is_favorite := false, tags := [], share_token := none,
          created_at := o.createdAt }

/-- One iteration of the upload loop, with its store effects: oversize
files are skipped; a successful blob write adds the blob; a failed
metadata insert triggers the best-effort compensating blob delete; a
successful insert appends the record. -/
def processFile (userId : String) (descr : Option String) (f : UploadFile)
    (o : UploadOutcome) (st : Store) : Store × Except String FileRecord :=
  if f.size > MAX_FILE_SIZE then
    (st, .error (f.name ++ ": File too large (max 50MB)"))
  else if ¬ o.uploadOk then (st, .error (f.name ++ ": Upload failed"))
  else
    let path := userId ++ "/" ++ uploadStoredName o.uid f.name f.type
    if ¬ o.insertOk then
      ({ st with blobs := if o.removeOk then (path :: st.blobs).erase path
                          else path :: st.blobs },
       .error (f.name ++ ": Failed to save metadata"))
    else
      let r : FileRecord :=
        { id := o.recId, user_id := userId, file_path := path,
          file_name := f.name, file_type := jsTypeOr f.type,
          file_size := f.size, description := jsOrNull descr,
          is_favorite := false, tags := [], share_token := none,
          created_at := o.createdAt }
      ({ blobs := path :: st.blobs, records := st.records ++ [r] }, .ok r)

/-- The reported part of `processFile` is exactly `fileResult`: the
verdict for a file does not depend on the store, hence not on what the
sibling files did. -/
theorem processFile_snd (userId : String) (descr : Option String)
    (f : UploadFile) (o : UploadOutcome) (st : Store) :
    (processFile userId descr f o st).2 = fileResult userId descr f o := by
  unfold processFile fileResult
  split_ifs <;> rfl

/-- The upload loop over the whole batch, threading the store and
collecting created records and per-file error strings in order. -/
def processFiles (userId : String) (descr : Option String) :
    List (UploadFile × UploadOutcome) → Store →
    Store × List FileRecord × List String
  | [], st => (st, [], [])
  | p :: rest, st =>
    let pr := processFile userId descr p.1 p.2 st
    let tl := processFiles userId descr rest pr.1
    match pr.2 with
    | .ok r => (tl.1, r :: tl.2.1, tl.2.2)
    | .error e => (tl.1, tl.2.1, e :: tl.2.2)

/-- The response body of the upload handler.  `errors` is omitted
(`undefined`) when no file failed. -/
structure UploadResponse where
  success : Bool
  uploaded : List FileRecord
  errors : Option (List String)
  deriving Repr, DecidableEq

/-- POST upload: authenticate, reject an empty batch, process each file
independently, and answer with the created records, the per-file errors,
and `success = uploadedFiles.length > 0`. -/
def uploadPost (auth : Option String)
    (files : List (UploadFile × UploadOutcome)) (descr : Option String)
    (st : Store) : HandlerResult UploadResponse × Store :=
  match auth with
  | none => (.err 401 "Unauthorized", st)
  | some u =>
    if files.isEmpty then (.err 400 "No files provided", st)
    else
      let res := processFiles u descr files st
      (.ok { success := !res.2.1.isEmpty, uploaded := res.2.1,
             errors := if res.2.2.isEmpty then none else some res.2.2 },
       res.1)

/-- The record and error lists of the upload loop are the per-file
verdicts of the batch, each computed by `fileResult` alone. -/
theorem processFiles_results (u : String) (d : Option String) :
    ∀ (ps : List (UploadFile × UploadOutcome)) (st : Store),
    (processFiles u d ps st).2.1 =
      ps.filterMap (fun p => (fileResult u d p.1 p.2).toOption) ∧
    (processFiles u d ps st).2.2 =
      ps.filterMap (fun p =>
        match fileResult u d p.1 p.2 with
        | .error e => some e
        | .ok _ => none) := by
  intro ps
  induction ps with
  | nil => intro st; exact ⟨rfl, rfl⟩
  | cons p rest ih =>
    intro st
    obtain ⟨ih1, ih2⟩ := ih (processFile u d p.1 p.2 st).1
    unfold processFiles
    cases h : fileResult u d p.1 p.2 <;>
      simp [processFile_snd, h, ih1, ih2, Except.toOption]

/-! ## Photo-variant upload -/

/-- A row of the `photos` table. -/
structure PhotoRecord where
  id : String
  user_id : String
  file_path : String
  created_at : Nat
  deriving Repr, DecidableEq

/-- The photo bucket and the `photos` table. -/
structure PhotoStore where
  blobs : List String
  photos : List PhotoRecord
  deriving Repr, DecidableEq

/-- `MAX_FILE_SIZE = 10 * 1024 * 1024` of the photo-variant handler. -/
def PHOTO_MAX_SIZE : Nat := 10 * 1024 * 1024

/-- `ALLOWED_TYPES` of the photo-variant handler. -/
def ALLOWED_TYPES : List String :=
  ["image/jpeg", "image/png", "image/gif", "image/webp"]

/-- POST photos: single-file, image-MIME allow-list, 10MB ceiling; on a
failed metadata insert the just-written blob is removed (best-effort)
and a 500 is reported. -/
def photoPost (auth : Option String) (file : Option UploadFile)
    (o : UploadOutcome) (st : PhotoStore) :
    HandlerResult PhotoRecord × PhotoStore :=
  match auth with
  | none => (.err 401 "Unauthorized", st)
  | some u =>
    match file with
    | none => (.err 400 "No file provided", st)
    | some f =>
      if ¬ ALLOWED_TYPES.contains f.type then
        (.err 400 "Invalid file type. Allowed: JPEG, PNG, GIF, WebP", st)
      else if f.size > PHOTO_MAX_SIZE then
        (.err 400 "File too large. Maximum size: 10MB", st)
      else
        let path := u ++ "/" ++ photoStoredName o.uid f.name
        if ¬ o.uploadOk then (.err 500 "Failed to upload file", st)
        else if ¬ o.insertOk then
          (.err 500 "Failed to save photo metadata",
           { st with blobs := if o.removeOk then (path :: st.blobs).erase path
                              else path :: st.blobs })
        else
          let r : PhotoRecord := ⟨o.recId, u, path, o.createdAt⟩
          (.ok r, { blobs := path :: st.blobs, photos := st.photos ++ [r] })

/-- C3: when the blob write succeeds and the metadata insert fails, the
upload loop deletes the just-written blob (best-effort: the blob set is
restored when the compensating delete succeeds), reports the file as
failed naming it, and creates no record — and any record the loop does
keep was inserted together with its blob; likewise for the photo-variant
handler. -/
theorem upload_insert_failure_compensation (u : String) (d : Option String)
    (f : UploadFile) (o : UploadOutcome) (st : Store)
    (hup : o.uploadOk = true) (hins : o.insertOk = false)
    (hsz : f.size ≤ MAX_FILE_SIZE) :
    (processFile u d f o st).2 =
      .error (f.name ++ ": Failed to save metadata") ∧
    (processFile u d f o st).1.records = st.records ∧
    (o.removeOk = true → (processFile u d f o st).1.blobs = st.blobs) ∧
    (o.removeOk = false → (processFile u d f o st).1.blobs =
      (u ++ "/" ++ uploadStoredName o.uid f.name f.type) :: st.blobs) ∧
    (∀ o' : UploadOutcome, o'.uploadOk = true → o'.insertOk = true →
      ∃ r : FileRecord, processFile u d f o' st =
        (⟨r.file_path :: st.blobs, st.records ++ [r]⟩, .ok r)) ∧
    (∀ (pf : UploadFile) (pst : PhotoStore),
      ALLOWED_TYPES.contains pf.type = true → pf.size ≤ PHOTO_MAX_SIZE →
      (photoPost (some u) (some pf) o pst).1 =
        .err 500 "Failed to save photo metadata" ∧
      (photoPost (some u) (some pf) o pst).2.photos = pst.photos ∧
      (o.removeOk = true →
        (photoPost (some u) (some pf) o pst).2.blobs = pst.blobs)) := by
  have hns : ¬ f.size > MAX_FILE_SIZE := by omega
  refine ⟨?_, ?_, ?_, ?_, ?_, ?_⟩
  · simp [processFile, hns, hup, hins]
  · simp [processFile, hns, hup, hins]
  · intro hrm
    simp [processFile, hns, hup, hins, hrm]
  · intro hrm
    simp [processFile, hns, hup, hins, hrm]
  · intro o' h1 h2
    unfold processFile
    rw [if_neg hns, if_neg (by simp [h1]), if_neg (by simp [h2])]
    exact ⟨{ id := o'.recId, user_id := u,
             file_path := u ++ "/" ++ uploadStoredName o'.uid f.name f.type,
             file_name := f.name, file_type := jsTypeOr f.type,
             file_size := f.size, description := jsOrNull d,
             is_favorite := false, tags := [], share_token := none,
             created_at := o'.createdAt }, rfl⟩
  · intro pf pst hty hpsz
    have hnps : ¬ pf.size > PHOTO_MAX_SIZE := by omega
    have hmem : pf.type ∈ ALLOWED_TYPES := by simpa using hty
    refine ⟨?_, ?_, ?_⟩
    · simp [photoPost, hmem, hnps, hup, hins]
    · simp [photoPost, hmem, hnps, hup, hins]
    · intro hrm
      simp [photoPost, hmem, hnps, hup, hins, hrm]

/-- Witness for C3: one file whose blob write succeeds and whose insert
fails, with a successful compensating delete, against an empty store. -/
theorem upload_insert_failure_compensation_witness :
    (processFile "u1" none ⟨"a.txt", "text/plain", 3⟩
      ⟨"uid1", "r1", 0, true, false, true⟩ ⟨[], []⟩).2 =
      .error ("a.txt" ++ ": Failed to save metadata") ∧
    (processFile "u1" none ⟨"a.txt", "text/plain", 3⟩
      ⟨"uid1", "r1", 0, true, false, true⟩ ⟨[], []⟩).1.records = [] ∧
    (processFile "u1" none ⟨"a.txt", "text/plain", 3⟩
      ⟨"uid1", "r1", 0, true, false, true⟩ ⟨[], []⟩).1.blobs = [] := by
  have h := upload_insert_failure_compensation "u1" none
    ⟨"a.txt", "text/plain", 3⟩ ⟨"uid1", "r1", 0, true, false, true⟩
    ⟨[], []⟩ rfl rfl (by decide)
  exact ⟨h.1, h.2.1, h.2.2.1 rfl⟩

/-- C4: the upload handler's answer on a nonempty batch is assembled
entirely from the per-file verdicts of `fileResult`, which sees only that
file and its outcome — so no file affects its siblings; the success flag
computed this way is true exactly when at least one record was created;
and an oversize file always yields the error string naming it. -/
theorem upload_batch_per_file_independence (u : String) (d : Option String)
    (ps : List (UploadFile × UploadOutcome)) (st : Store) (hne : ps ≠ []) :
    uploadPost (some u) ps d st =
      (.ok { success :=
               !(ps.filterMap
                  (fun p => (fileResult u d p.1 p.2).toOption)).isEmpty,
             uploaded :=
               ps.filterMap (fun p => (fileResult u d p.1 p.2).toOption),
             errors :=
               if (ps.filterMap (fun p =>
                     match fileResult u d p.1 p.2 with
                     | .error e => some e
                     | .ok _ => none)).isEmpty then none
               else some (ps.filterMap (fun p =>
                     match fileResult u d p.1 p.2 with
                     | .error e => some e
                     | .ok _ => none)) },
       (processFiles u d ps st).1) ∧
    ((!(ps.filterMap
         (fun p => (fileResult u d p.1 p.2).toOption)).isEmpty) = true ↔
      ps.filterMap (fun p => (fileResult u d p.1 p.2).toOption) ≠ []) ∧
    (∀ (f : UploadFile) (o : UploadOutcome), f.size > MAX_FILE_SIZE →
      fileResult u d f o =
        .error (f.name ++ ": File too large (max 50MB)")) := by
  obtain ⟨h1, h2⟩ := processFiles_results u d ps st
  refine ⟨?_, ?_, ?_⟩
  · have hne' : ps.isEmpty = false := by simp [hne]
    simp [uploadPost, hne', h1, h2]
    rw [h2]
  · simp [List.isEmpty_iff]
  · intro f o hsz
    unfold fileResult
    rw [if_pos hsz]

/-- Witness for C4: a two-file batch — a 5-byte file that succeeds and a
60MB file — yields one record for the small file, one error naming the
big file, and a true success flag; the big file did not disturb its
sibling. -/
theorem upload_batch_per_file_independence_witness :
    uploadPost (some "u1")
        [(⟨"ok.txt", "text/plain", 5⟩, ⟨"aa", "r1", 7, true, true, true⟩),
         (⟨"big.bin", "application/zip", 62914560⟩,
          ⟨"bb", "r2", 8, true, true, true⟩)] none ⟨[], []⟩ =
      (.ok { success := true,
             uploaded := [⟨"r1", "u1", "u1/aa.txt", "ok.txt", "text/plain",
               5, none, false, [], none, 7⟩],
             errors := some ["big.bin: File too large (max 50MB)"] },
       ⟨["u1/aa.txt"],
        [⟨"r1", "u1", "u1/aa.txt", "ok.txt", "text/plain", 5, none, false,
          [], none, 7⟩]⟩) := by
  rw [(upload_batch_per_file_independence "u1" none
    [(⟨"ok.txt", "text/plain", 5⟩, ⟨"aa", "r1", 7, true, true, true⟩),
     (⟨"big.bin", "application/zip", 62914560⟩,
      ⟨"bb", "r2", 8, true, true, true⟩)] ⟨[], []⟩ (by decide)).1]
  decide

/-! ## Share resolver -/

/-- The reduced projection returned by the share endpoint: exactly the
fields of its response object. -/
structure SharedFileView where
  id : String
  file_name : String
  file_type : String
  file_size : Nat
  description : Option String
  created_at : Nat
  url : Option String
  deriving Repr, DecidableEq

/-- The share response body built from a found record and the freshly
signed URL. -/
def shareView (r : FileRecord) (url : Option String) : SharedFileView :=
  ⟨r.id, r.file_name, r.file_type, r.file_size, r.description,
   r.created_at, url⟩

/-- GET share: no identity check; `token` from the query string (absent
or empty is rejected with 400); the single-row lookup by `share_token`;
on success a 1-hour signed URL and the reduced projection.  `sign` is the
object store's signed-URL issuer (path, ttl seconds). -/
def shareGet (token : Option String) (sign : String → Nat → Option String)
    (st : Store) : HandlerResult SharedFileView :=
  match token with
  | none => .err 400 "Share token required"
  | some tok =>
    if tok = "" then .err 400 "Share token required"
    else
      match st.records.filter (fun r => r.share_token == some tok) with
      | [r] => .ok (shareView r (sign r.file_path 3600))
      | _ => .err 404 "File not found or not shared"

/-- On a present token, the share resolver reduces to the empty-token
check followed by the single-row lookup. -/
theorem shareGet_some (tok : String) (sign : String → Nat → Option String)
    (st : Store) :
    shareGet (some tok) sign st =
      (if tok = "" then .err 400 "Share token required"
       else
         match st.records.filter (fun r => r.share_token == some tok) with
         | [r] => .ok (shareView r (sign r.file_path 3600))
         | _ => .err 404 "File not found or not shared") := rfl

/-- C5: whenever the share resolver answers with a file, the payload is
the reduced projection of a stored record carrying the token — exactly
id, file_name, file_type, file_size, description, created_at and the
1-hour signed URL — and the projection is independent of the record's
owner, tags, favorite flag and share token, so none of those can appear
in the response. -/
theorem share_response_projection (tok : String)
    (sign : String → Nat → Option String) (st : Store)
    (v : SharedFileView) (h : shareGet (some tok) sign st = .ok v) :
    (∃ r ∈ st.records, r.share_token = some tok ∧
      v = shareView r (sign r.file_path 3600) ∧
      v.id = r.id ∧ v.file_name = r.file_name ∧
      v.file_type = r.file_type ∧ v.file_size = r.file_size ∧
      v.description = r.description ∧ v.created_at = r.created_at ∧
      v.url = sign r.file_path 3600) ∧
    (∀ (r : FileRecord) (uid : String) (tg : List String) (fv : Bool)
      (tk : Option String) (url : Option String),
      shareView { r with
                    user_id := uid, tags := tg, is_favorite := fv,
                    share_token := tk } url = shareView r url) := by
  refine ⟨?_, fun r uid tg fv tk url => rfl⟩
  rw [shareGet_some] at h
  split at h
  · exact absurd h (by simp)
  · split at h
    · rename_i r heq
      have hr : r ∈ st.records.filter
          (fun x => x.share_token == some tok) := by
        rw [heq]
        exact List.mem_singleton.mpr rfl
      have hmem := List.mem_filter.mp hr
      have htok : r.share_token = some tok := by
        have := hmem.2
        simpa using this
      injection h with h'
      subst h'
      exact ⟨r, hmem.1, htok, rfl, rfl, rfl, rfl, rfl, rfl, rfl, rfl⟩
    · exact absurd h (by simp)

/-- Witness for C5: a one-record store whose record carries token tok1;
the resolver answers with the reduced projection and the signed URL. -/
theorem share_response_projection_witness :
    (∃ r ∈ [(⟨"id1", "u1", "u1/a.txt", "a.txt", "text/plain", 3, none,
        false, [], some "tok1", 9⟩ : FileRecord)],
      r.share_token = some "tok1" ∧
      (⟨"id1", "a.txt", "text/plain", 3, none, 9, some "URL"⟩ :
        SharedFileView) = shareView r ((fun _ _ => some "URL")
          r.file_path 3600) ∧
      (⟨"id1", "a.txt", "text/plain", 3, none, 9, some "URL"⟩ :
        SharedFileView).id = r.id ∧
      (⟨"id1", "a.txt", "text/plain", 3, none, 9, some "URL"⟩ :
        SharedFileView).file_name = r.file_name ∧
      (⟨"id1", "a.txt", "text/plain", 3, none, 9, some "URL"⟩ :
        SharedFileView).file_type = r.file_type ∧
      (⟨"id1", "a.txt", "text/plain", 3, none, 9, some "URL"⟩ :
        SharedFileView).file_size = r.file_size ∧
      (⟨"id1", "a.txt", "text/plain", 3, none, 9, some "URL"⟩ :
        SharedFileView).description = r.description ∧
      (⟨"id1", "a.txt", "text/plain", 3, none, 9, some "URL"⟩ :
        SharedFileView).created_at = r.created_at ∧
      (⟨"id1", "a.txt", "text/plain", 3, none, 9, some "URL"⟩ :
        SharedFileView).url = (fun _ _ => some "URL") r.file_path 3600) ∧
    (∀ (r : FileRecord) (uid : String) (tg : List String) (fv : Bool)
      (tk : Option String) (url : Option String),
      shareView { r with
                    user_id := uid, tags := tg, is_favorite := fv,
                    share_token := tk } url = shareView r url) :=
  share_response_projection "tok1" (fun _ _ => some "URL")
    ⟨[], [⟨"id1", "u1", "u1/a.txt", "a.txt", "text/plain", 3, none, false,
      [], some "tok1", 9⟩]⟩
    ⟨"id1", "a.txt", "text/plain", 3, none, 9, some "URL"⟩ (by decide)

/-- C10: with a nonempty token, the share resolver answers with a file
exactly when the store holds exactly one record carrying that token;
when zero records or several records match, it answers 404 with the same
not-found body in both cases. -/
theorem share_token_single_row (tok : String)
    (sign : String → Nat → Option String) (st : Store) (hne : tok ≠ "") :
    ((st.records.filter (fun r => r.share_token == some tok)).length = 1 ↔
      ∃ v, shareGet (some tok) sign st = .ok v) ∧
    ((st.records.filter (fun r => r.share_token == some tok)).length ≠ 1 →
      shareGet (some tok) sign st =
        .err 404 "File not found or not shared") := by
  rw [shareGet_some, if_neg hne]
  cases hl : st.records.filter (fun r => r.share_token == some tok) with
  | nil => simp
  | cons a t =>
    cases t with
    | nil => simp
    | cons b t2 => simp

/-- Witness for C10: a store holding two records that share the token t;
the lookup does not match exactly one row, so the resolver answers the
same 404 as for an unknown token. -/
theorem share_token_single_row_witness :
    (((⟨[], [⟨"a", "u1", "u1/a", "a", "t", 0, none, false, [], some "t", 0⟩,
        ⟨"b", "u1", "u1/b", "b", "t", 0, none, false, [], some "t", 0⟩]⟩ :
        Store).records.filter
          (fun r => r.share_token == some "t")).length = 1 ↔
      ∃ v, shareGet (some "t") (fun _ _ => none)
        ⟨[], [⟨"a", "u1", "u1/a", "a", "t", 0, none, false, [], some "t", 0⟩,
          ⟨"b", "u1", "u1/b", "b", "t", 0, none, false, [], some "t", 0⟩]⟩ =
          .ok v) ∧
    (((⟨[], [⟨"a", "u1", "u1/a", "a", "t", 0, none, false, [], some "t", 0⟩,
        ⟨"b", "u1", "u1/b", "b", "t", 0, none, false, [], some "t", 0⟩]⟩ :
        Store).records.filter
          (fun r => r.share_token == some "t")).length ≠ 1 →
      shareGet (some "t") (fun _ _ => none)
        ⟨[], [⟨"a", "u1", "u1/a", "a", "t", 0, none, false, [], some "t", 0⟩,
          ⟨"b", "u1", "u1/b", "b", "t", 0, none, false, [], some "t", 0⟩]⟩ =
        .err 404 "File not found or not shared") :=
  share_token_single_row "t" (fun _ _ => none)
    ⟨[], [⟨"a", "u1", "u1/a", "a", "t", 0, none, false, [], some "t", 0⟩,
      ⟨"b", "u1", "u1/b", "b", "t", 0, none, false, [], some "t", 0⟩]⟩
    (by decide)

/-! ## DELETE handler -/

/-- An external operation issued by the DELETE handler, in order. -/
inductive DelOp where
  | dbFetch (q : DbQuery)
  | storageRemove (paths : List String)
  | dbDelete (q : DbQuery)
  deriving Repr, DecidableEq

/-- DELETE: authenticate, require an id, fetch the record by id and owner
(single row), then remove the blob at its path and delete the row by id
— both results unchecked — and acknowledge success.  `removeOk` is the
outcome of the blob removal; the third component is the ordered trace of
issued operations. -/
def deleteHandler (auth : Option String) (fileId : Option String)
    (removeOk : Bool) (st : Store) :
    HandlerResult Unit × Store × List DelOp :=
  match auth with
  | none => (.err 401 "Unauthorized", st, [])
  | some u =>
    match fileId with
    | none => (.err 400 "File ID required", st, [])
    | some fid =>
      if fid = "" then (.err 400 "File ID required", st, [])
      else
        match st.records.filter (fun x => x.id == fid && x.user_id == u) with
        | [r] =>
          (.ok (),
           ⟨if removeOk then st.blobs.erase r.file_path else st.blobs,
            st.records.filter (fun x => !(x.id == fid))⟩,
           [.dbFetch (deleteFetchQuery fid u),
            .storageRemove [r.file_path],
            .dbDelete (deleteDeleteQuery fid)])
        | _ => (.err 404 "File not found", st,
                [.dbFetch (deleteFetchQuery fid u)])

/-- GET list: the caller's records, most recent first.  (The signed-URL
decoration does not change which records appear.) -/
def listFiles (u : String) (st : Store) : List FileRecord :=
  List.insertionSort (fun a b => b.created_at ≤ a.created_at)
    (st.records.filter (fun r => r.user_id == u))

/-- C9: deleting an owned record issues the blob removal before the
metadata delete, deletes the metadata row whatever the blob removal's
outcome, acknowledges success, and a subsequent list for the owner no
longer contains the record's id. -/
theorem delete_blob_then_metadata (u fid : String) (removeOk : Bool)
    (st : Store) (r : FileRecord) (hfid : fid ≠ "")
    (hone : st.records.filter (fun x => x.id == fid && x.user_id == u) =
      [r]) :
    deleteHandler (some u) (some fid) removeOk st =
      (.ok (),
       ⟨if removeOk then st.blobs.erase r.file_path else st.blobs,
        st.records.filter (fun x => !(x.id == fid))⟩,
       [.dbFetch (deleteFetchQuery fid u),
        .storageRemove [r.file_path],
        .dbDelete (deleteDeleteQuery fid)]) ∧
    (∀ x ∈ listFiles u
        ⟨if removeOk then st.blobs.erase r.file_path else st.blobs,
         st.records.filter (fun x => !(x.id == fid))⟩,
      x.id ≠ fid) := by
  constructor
  · simp only [deleteHandler]
    rw [if_neg hfid, hone]
  · intro x hx
    unfold listFiles at hx
    have hx1 := (List.perm_insertionSort
      (fun a b : FileRecord => b.created_at ≤ a.created_at) _).mem_iff.mp hx
    have hx2 := List.mem_filter.mp hx1
    have hx3 := List.mem_filter.mp hx2.1
    intro hxe
    have := hx3.2
    simp [hxe] at this

/-- Witness for C9: a two-record store; deleting record a with a failing
blob removal still removes the metadata row, answers success with the
remove-then-delete trace, and the subsequent list shows only record b. -/
theorem delete_blob_then_metadata_witness :
    deleteHandler (some "u1") (some "a") false
      ⟨["u1/a"],
       [⟨"a", "u1", "u1/a", "a", "t", 0, none, false, [], none, 5⟩,
        ⟨"b", "u1", "u1/b", "b", "t", 0, none, false, [], none, 4⟩]⟩ =
      (.ok (),
       ⟨if false then (["u1/a"] : List String).erase "u1/a" else ["u1/a"],
        ([⟨"a", "u1", "u1/a", "a", "t", 0, none, false, [], none, 5⟩,
          ⟨"b", "u1", "u1/b", "b", "t", 0, none, false, [], none, 4⟩] :
          List FileRecord).filter (fun x => !(x.id == "a"))⟩,
       [.dbFetch (deleteFetchQuery "a" "u1"),
        .storageRemove ["u1/a"],
        .dbDelete (deleteDeleteQuery "a")]) ∧
    (∀ x ∈ listFiles "u1"
        ⟨if false then (["u1/a"] : List String).erase "u1/a" else ["u1/a"],
         ([⟨"a", "u1", "u1/a", "a", "t", 0, none, false, [], none, 5⟩,
           ⟨"b", "u1", "u1/b", "b", "t", 0, none, false, [], none, 4⟩] :
           List FileRecord).filter (fun x => !(x.id == "a"))⟩,
      x.id ≠ "a") :=
  delete_blob_then_metadata "u1" "a" false
    ⟨["u1/a"],
     [⟨"a", "u1", "u1/a", "a", "t", 0, none, false, [], none, 5⟩,
      ⟨"b", "u1", "u1/b", "b", "t", 0, none, false, [], none, 4⟩]⟩
    ⟨"a", "u1", "u1/a", "a", "t", 0, none, false, [], none, 5⟩
    (by decide) (by decide)

/-- Witness for the amended C8 at a dotless filename: the stored name is
the unique id with the MIME-derived extension png, nonempty and entirely
lowercase alphanumeric. -/
theorem upload_stored_name_sanitized_witness :
    uploadStoredName "aa" "noext" "image/png" =
      "aa" ++ "." ++ robustExt "noext" "image/png" ∧
    robustExt "noext" "image/png" ≠ "" ∧
    (∀ c ∈ (robustExt "noext" "image/png").toList, isLowerAlnum c = true) ∧
    ((jsSplit "noext" '.').length ≤ 1 →
      robustExt "noext" "image/png" =
        (if mimeExtOf "image/png" ≠ "" then mimeExtOf "image/png"
         else "bin")) :=
  upload_stored_name_sanitized "aa" "noext" "image/png"
